import Mathlib

/-!
Verification of the `perplexity-ask` MCP server (`src/perplexity-ask/src/index.ts`)
against its natural-language specification.

The TypeScript source is shallowly embedded: JSON documents become the inductive
`Json`, JavaScript values that may be `undefined` become `JsValue := Option Json`,
thrown JavaScript errors become the inductive `JsError` (distinguishing
deliberately constructed `Error` objects from runtime `TypeError` faults raised
by property access on `undefined`/`null`), and the outbound `fetch` call becomes
an explicit oracle `fetchFn : Request → FetchOutcome`; the embedding returns the
list of requests actually issued so that "exactly one outbound request" and
"the Completion Client is never invoked" are directly statable.
-/

/-- JSON values, as produced by `JSON.parse` / consumed by `JSON.stringify`.
Numbers are modelled as integers (all numbers appearing in this program's
traffic are integers; no float arithmetic occurs in the source). Objects are
ordered association lists, matching JavaScript property order. -/
inductive Json where
  | null : Json
  | bool : Bool → Json
  | num : Int → Json
  | str : String → Json
  | arr : List Json → Json
  | obj : List (String × Json) → Json
deriving Repr

/-- A JavaScript value as seen by the handler code: either `undefined`
(`Option.none`) or a JSON value. -/
abbrev JsValue : Type := Option Json

/-- A thrown JavaScript error. `error` is a constructed `new Error(msg)`;
`typeError` is a runtime `TypeError` fault (property access on
`undefined`/`null`). Both are `instanceof Error` in JavaScript, so both carry a
`.message` read by the handler's `catch` clause. -/
inductive JsError where
  | error : String → JsError
  | typeError : String → JsError
deriving Repr, DecidableEq

/-- `e.message` of a thrown error (`error instanceof Error ? error.message : …`;
both constructors are `Error` instances). -/
def JsError.message : JsError → String
  | .error m => m
  | .typeError m => m

/-- First-occurrence lookup in a JavaScript object's property list. -/
def jsLookup : List (String × Json) → String → Option Json
  | [], _ => none
  | (k, v) :: rest, f => if k = f then some v else jsLookup rest f

/-- JavaScript property access `j.f` on a (non-`undefined`) JSON value.
On `null` this throws a `TypeError`; on an object it looks the field up
(missing fields read as `undefined`); on arrays, strings, numbers and booleans
the (non-numeric, non-`length`) field names this program reads — `choices`,
`message`, `content`, `citations`, `messages` — are all absent, reading as
`undefined`. -/
def jsGetField (j : Json) (f : String) : Except JsError JsValue :=
  match j with
  | .null => .error (.typeError ("Cannot read properties of null (reading '" ++ f ++ "')"))
  | .obj fields => .ok (jsLookup fields f)
  | _ => .ok none

/-- JavaScript property access `v.f` on a value that may be `undefined`:
access on `undefined` throws a `TypeError`. -/
def jsGet (v : JsValue) (f : String) : Except JsError JsValue :=
  match v with
  | none => .error (.typeError ("Cannot read properties of undefined (reading '" ++ f ++ "')"))
  | some j => jsGetField j f

/-- JavaScript indexed access `v[n]` on a value that may be `undefined`:
`undefined[n]` and `null[n]` throw a `TypeError`; an array yields its element
or `undefined` past the end; a string yields its one-character substring; an
object looks up the numeric key as a string; numbers and booleans read as
`undefined`. -/
def jsIndex (v : JsValue) (n : Nat) : Except JsError JsValue :=
  match v with
  | none => .error (.typeError ("Cannot read properties of undefined (reading '" ++ toString n ++ "')"))
  | some .null => .error (.typeError ("Cannot read properties of null (reading '" ++ toString n ++ "')"))
  | some (.arr xs) => .ok (xs.get? n)
  | some (.str s) => .ok ((s.data.get? n).map (fun c => Json.str (String.mk [c])))
  | some (.obj fields) => .ok (jsLookup fields (toString n))
  | some _ => .ok none

/-- JavaScript truthiness of a value (used by `if (data.citations && …)` and by
`!args`, `!args.messages`). -/
def jsTruthy (v : JsValue) : Bool :=
  match v with
  | none => false
  | some .null => false
  | some (.bool b) => b
  | some (.num n) => n != 0
  | some (.str s) => s ≠ ""
  | some (.arr _) => true
  | some (.obj _) => true

/-- `Array.isArray` on a JavaScript value. -/
def jsIsArray (v : JsValue) : Bool :=
  match v with
  | some (.arr _) => true
  | _ => false

mutual

/-- JavaScript `ToString` coercion on a JSON value, as applied by string
concatenation (`messageContent += …`) and template literals
(`` `[${index + 1}] ${citation}` ``). Arrays stringify as their elements
joined by commas; objects as the `[object Object]` placeholder. -/
def jsToStringJ : Json → String
  | .null => "null"
  | .bool true => "true"
  | .bool false => "false"
  | .num n => toString n
  | .str s => s
  | .arr xs => String.intercalate "," (jsToStringList xs)
  | .obj _ => "[object Object]"

def jsToStringList : List Json → List String
  | [] => []
  | x :: rest => jsToStringJ x :: jsToStringList rest

end

/-- JavaScript `ToString` on a possibly-`undefined` value. -/
def jsToString (v : JsValue) : String :=
  match v with
  | none => "undefined"
  | some j => jsToStringJ j

/-- An outbound HTTP request as assembled for `fetch`. The body is kept as the
JSON document passed to `JSON.stringify`. -/
structure Request where
  url : String
  method : String
  headers : List (String × String)
  body : Json
deriving Repr

/-- The `Response` object resolved by a completed `fetch`. `status` and
`statusText` are the upstream HTTP status line; `textBody` models
`response.text()` (which can itself fail); `jsonBody` models `response.json()`
(failure is a JSON parse error, carried as its stringification). -/
structure FetchResponse where
  status : Nat
  statusText : String
  textBody : Except String String
  jsonBody : Except String Json

/-- `response.ok` per the WHATWG fetch specification: status in the 2xx range. -/
def FetchResponse.ok (r : FetchResponse) : Bool :=
  200 ≤ r.status && r.status ≤ 299

/-- Outcome of a `fetch` call: either the promise rejects with a transport
error (carried as its stringification, as interpolated by `${error}`) or it
resolves to a `Response`. -/
inductive FetchOutcome where
  | networkError : String → FetchOutcome
  | response : FetchResponse → FetchOutcome

/-- The request `performChatCompletion` assembles: POST to the fixed API URL
(`new URL(this.apiUrl).toString()` is the identity on this already-normalised
URL), JSON content type, bearer authorization from the credential, body
`{ model: "sonar-pro", messages }`. -/
def mkRequest (apiKey : String) (messages : List Json) : Request :=
  { url := "https://api.perplexity.ai/chat/completions"
    method := "POST"
    headers := [("Content-Type", "application/json"),
                ("Authorization", "Bearer " ++ apiKey)]
    body := Json.obj [("model", Json.str "sonar-pro"), ("messages", Json.arr messages)] }

/-- The citation-appending loop:
`citations.forEach((citation, index) => { messageContent += `[${index + 1}] ${citation}\n`; })`,
folding over the citations with the running string and the current index. -/
def appendCitationsFrom (acc : String) (idx : Nat) : List Json → String
  | [] => acc
  | c :: rest =>
      appendCitationsFrom (acc ++ "[" ++ toString (idx + 1) ++ "] " ++ jsToString (some c) ++ "\n")
        (idx + 1) rest

/-- The success-path response transform of `performChatCompletion`: retrieve
`data.choices[0].message.content` (property access faults propagate as
`TypeError`s), then, if `data.citations && Array.isArray(data.citations) &&
data.citations.length > 0`, append the blank line, the `Citations:` line and
one `[i] citation` line per citation. -/
def formatResult (data : Json) : Except JsError JsValue := do
  let choices ← jsGetField data "choices"
  let c0 ← jsIndex choices 0
  let msg ← jsGet c0 "message"
  let content ← jsGet msg "content"
  let citations ← jsGetField data "citations"
  if jsTruthy citations && jsIsArray citations &&
      (match citations with | some (.arr xs) => xs.length | _ => 0) > 0 then
    match citations with
    | some (.arr xs) =>
        return some (Json.str (appendCitationsFrom (jsToString content ++ "\n\nCitations:\n") 0 xs))
    | _ => return content
  else
    return content

/-- `performChatCompletion(messages)`: build the request, issue it once through
the fetch oracle, and translate the outcome exactly as the source does. The
first component of the result is the list of outbound requests actually
issued (the source contains a single `fetch` call and no retry logic). -/
def performChatCompletion (apiKey : String) (messages : List Json)
    (fetchFn : Request → FetchOutcome) : List Request × Except JsError JsValue :=
  let req := mkRequest apiKey messages
  match fetchFn req with
  | .networkError e =>
      ([req], .error (.error ("Network error while calling Perplexity API: " ++ e)))
  | .response r =>
      if !r.ok then
        let errorText := match r.textBody with
          | .ok t => t
          | .error _ => "Unable to parse error response"
        ([req], .error (.error ("Perplexity API error: " ++ toString r.status ++ " "
          ++ r.statusText ++ "\n" ++ errorText)))
      else
        match r.jsonBody with
        | .error jsonError =>
            ([req], .error (.error ("Failed to parse JSON response from Perplexity API: "
              ++ jsonError)))
        | .ok data => ([req], formatResult data)

/-- MCP error codes used by this server. -/
inductive McpErrorCode where
  | MethodNotFound : McpErrorCode
  | InvalidParams : McpErrorCode
  | InternalError : McpErrorCode
deriving Repr, DecidableEq

/-- A structured MCP protocol error (`McpError`), thrown by the call-tool
handler and surfaced by the protocol runtime as a structured error response. -/
structure McpError where
  code : McpErrorCode
  message : String
deriving Repr, DecidableEq

/-- One item of the tool response's `content` list; the source always emits
`{ type: 'text', text: result }`. -/
structure ContentItem where
  type : String
  text : JsValue
deriving Repr

/-- The successful tool-call response envelope. -/
structure ToolResponse where
  content : List ContentItem
  isError : Bool
deriving Repr

/-- An incoming call-tool request: the tool name and the `arguments` value
(`request.params.arguments`, which may be absent, i.e. `undefined`). -/
structure CallToolRequest where
  name : String
  arguments : JsValue

/-- The argument validation of the handler:
`!args || !args.messages || !Array.isArray(args.messages)` rejects; otherwise
`args.messages` (an array) is passed on. Whenever `args` is truthy it is not
`undefined`/`null`, so the property read cannot fault. -/
def validatedMessages (args : JsValue) : Option (List Json) :=
  if !jsTruthy args then none
  else
    match args with
    | some j =>
        match jsGetField j "messages" with
        | .ok msgs =>
            if !jsTruthy msgs then none
            else match msgs with
              | some (.arr xs) => some xs
              | _ => none
        | .error _ => none
    | none => none

/-- The `CallToolRequestSchema` handler: reject unknown tool names with
`MethodNotFound`; reject missing/non-array `messages` with `InvalidParams`;
otherwise delegate to `performChatCompletion` inside `try { … } catch (error)`,
wrapping a successful result as a single text-content item with
`isError: false` and converting ANY thrown error (constructed `Error`s and
runtime `TypeError`s alike) into an `InternalError` `McpError` whose message
embeds the underlying error's message. The first component records the
outbound requests issued by the Completion Client during the call. -/
def handleCallTool (apiKey : String) (fetchFn : Request → FetchOutcome)
    (req : CallToolRequest) : List Request × Except McpError ToolResponse :=
  if req.name ≠ "perplexity_ask" then
    ([], .error ⟨.MethodNotFound, "Unknown tool: " ++ req.name⟩)
  else
    match validatedMessages req.arguments with
    | none =>
        ([], .error ⟨.InvalidParams,
          "Invalid arguments for perplexity_ask: \x22messages\x22 must be an array"⟩)
    | some msgs =>
        match performChatCompletion apiKey msgs fetchFn with
        | (reqs, .ok result) =>
            (reqs, .ok { content := [{ type := "text", text := result }], isError := false })
        | (reqs, .error e) =>
            (reqs, .error ⟨.InternalError, "Error processing request: " ++ e.message⟩)

/-- Fate of the process as determined by the module top level. A missing
credential is an uncaught synchronous throw during module evaluation, which
terminates the Node process with a non-zero exit status. A rejection of
`server.run()` is consumed by `.catch(console.error)`: it is logged to the
diagnostic stream and does NOT terminate the process abnormally. -/
inductive ProcessFate where
  | exitFailure : String → ProcessFate
  | running : ProcessFate
  | runRejectionLogged : String → ProcessFate
deriving Repr, DecidableEq

/-- The module top level: read `PERPLEXITY_API_KEY` from the environment,
throw if absent (`throw new Error(…)`, uncaught — abnormal termination);
otherwise construct the server and execute `server.run().catch(console.error)`,
whose outcome is supplied as `runOutcome`. -/
def topLevel (env : Option String) (runOutcome : Except String Unit) : ProcessFate :=
  if env = none || env = some "" then
    .exitFailure "PERPLEXITY_API_KEY environment variable is required"
  else
    match runOutcome with
    | .ok _ => .running
    | .error e => .runRejectionLogged e

/-! ## Statement-side helpers -/

/-- Canonical successful upstream response body: `choices[0].message.content`
holding `base`, and, when `cits = some l`, a `citations` field holding `l`
(when `cits = none` the field is absent). -/
def successBody (base : String) (cits : Option (List Json)) : Json :=
  Json.obj ([("choices",
      Json.arr [Json.obj [("message", Json.obj [("content", Json.str base)])]])] ++
    (match cits with
     | none => []
     | some l => [("citations", Json.arr l)]))

/-- The citations block the specification describes: one line
`[<1-based index>] <citation>` per citation, in original order, indices
starting from `idx + 1`. -/
def citationLines (idx : Nat) : List String → String
  | [] => ""
  | c :: rest => "[" ++ toString (idx + 1) ++ "] " ++ c ++ "\n" ++ citationLines (idx + 1) rest

lemma appendCitationsFrom_eq_citationLines (cits : List String) :
    ∀ (acc : String) (idx : Nat),
    appendCitationsFrom acc idx (cits.map Json.str) = acc ++ citationLines idx cits := by
  induction cits with
  | nil => intro acc idx; simp [appendCitationsFrom, citationLines]
  | cons c rest ih =>
      intro acc idx
      simp only [List.map_cons, appendCitationsFrom, citationLines, ih, jsToString, jsToStringJ]
      simp [String.append_assoc]

/-! ## Claim theorems -/

/-- C3: for every messages array (and any credential and any behavior of the
fetch transport), `performChatCompletion` issues exactly one outbound HTTP
POST — no retries — to `https://api.perplexity.ai/chat/completions`, whose
JSON body is `{model: "sonar-pro", messages}` and whose headers are
`Content-Type: application/json` and `Authorization: Bearer <credential>`. -/
theorem perform_issues_exactly_one_request (apiKey : String) (msgs : List Json)
    (fetchFn : Request → FetchOutcome) :
    (performChatCompletion apiKey msgs fetchFn).1 =
      [{ url := "https://api.perplexity.ai/chat/completions"
         method := "POST"
         headers := [("Content-Type", "application/json"),
                     ("Authorization", "Bearer " ++ apiKey)]
         body := Json.obj [("model", Json.str "sonar-pro"), ("messages", Json.arr msgs)] }] := by
  unfold performChatCompletion
  rcases h : fetchFn (mkRequest apiKey msgs) with e | r
  · simp only [h]
    rfl
  · simp only [h]
    split
    · rfl
    · cases r.jsonBody <;> rfl

/-- C4: for every successful upstream response carrying a non-empty citations
array, the returned text is the base content, a blank line, the literal line
`Citations:`, and one line `[i] <citation>` per citation in original order
with 1-based indices. -/
theorem citations_appended_format (base : String) (cits : List String)
    (h : cits ≠ []) :
    formatResult (successBody base (some (cits.map Json.str))) =
      .ok (some (Json.str (base ++ "\n\nCitations:\n" ++ citationLines 0 cits))) := by
  have hc : (jsTruthy (some (Json.arr (cits.map Json.str))) &&
      jsIsArray (some (Json.arr (cits.map Json.str))) &&
      decide ((cits.map Json.str).length > 0)) = true := by
    simp [jsTruthy, jsIsArray, List.length_pos, List.map_eq_nil_iff, h]
  have hred : formatResult (successBody base (some (cits.map Json.str))) =
      if (jsTruthy (some (Json.arr (cits.map Json.str))) &&
          jsIsArray (some (Json.arr (cits.map Json.str))) &&
          decide ((cits.map Json.str).length > 0)) = true then
        Except.ok (some (Json.str (appendCitationsFrom
          (jsToString (some (Json.str base)) ++ "\n\nCitations:\n") 0 (cits.map Json.str))))
      else Except.ok (some (Json.str base)) := rfl
  rw [hred, if_pos hc, appendCitationsFrom_eq_citationLines]
  simp only [jsToString, jsToStringJ]

/-- Witness for C4, at the specification's own example: base `"base"` with
citations `["https://a", "https://b"]` yields
`"base\n\nCitations:\n[1] https://a\n[2] https://b\n"`. -/
theorem citations_appended_format_witness :
    (["https://a", "https://b"] : List String) ≠ [] ∧
    formatResult (successBody "base" (some ([Json.str "https://a", Json.str "https://b"]))) =
      .ok (some (Json.str "base\n\nCitations:\n[1] https://a\n[2] https://b\n")) :=
  ⟨by decide, citations_appended_format "base" ["https://a", "https://b"] (by decide)⟩

/-- C5: for every successful upstream response in which citations is an empty
array or absent, the returned text is exactly the base content, with no
citations block appended. -/
theorem no_citations_returns_base_content (base : String) :
    formatResult (successBody base none) = .ok (some (Json.str base)) ∧
    formatResult (successBody base (some [])) = .ok (some (Json.str base)) := by
  constructor <;> rfl

/-- C6: a call-tool request whose tool name is not `perplexity_ask` fails with
a `MethodNotFound` error, and the Completion Client is never invoked (no
outbound request is issued). -/
theorem unknown_tool_method_not_found (apiKey : String)
    (fetchFn : Request → FetchOutcome) (req : CallToolRequest)
    (h : req.name ≠ "perplexity_ask") :
    handleCallTool apiKey fetchFn req =
      ([], .error ⟨.MethodNotFound, "Unknown tool: " ++ req.name⟩) := by
  simp [handleCallTool, h]

/-- Witness for C6: the specification's example name `not_perplexity_ask`
(with well-formed arguments) yields `MethodNotFound` and no outbound request. -/
theorem unknown_tool_method_not_found_witness :
    ("not_perplexity_ask" : String) ≠ "perplexity_ask" ∧
    handleCallTool "key" (fun _ => .networkError "unreachable")
        ⟨"not_perplexity_ask", some (Json.obj [("messages", Json.arr [])])⟩ =
      ([], .error ⟨.MethodNotFound, "Unknown tool: not_perplexity_ask"⟩) :=
  ⟨by decide,
   unknown_tool_method_not_found "key" (fun _ => .networkError "unreachable")
     ⟨"not_perplexity_ask", some (Json.obj [("messages", Json.arr [])])⟩ (by decide)⟩

/-- C7: a call-tool request naming `perplexity_ask` whose arguments object
lacks the `messages` field, or whose `messages` field is not an array, fails
with an `InvalidParams` error, and the Completion Client is never invoked. -/
theorem invalid_messages_invalid_params (apiKey : String)
    (fetchFn : Request → FetchOutcome) (fields : List (String × Json))
    (h : jsLookup fields "messages" = none ∨
      ∀ j, jsLookup fields "messages" = some j → jsIsArray (some j) = false) :
    handleCallTool apiKey fetchFn ⟨"perplexity_ask", some (Json.obj fields)⟩ =
      ([], .error ⟨.InvalidParams,
        "Invalid arguments for perplexity_ask: \x22messages\x22 must be an array"⟩) := by
  have hv : validatedMessages (some (Json.obj fields)) = none := by
    rcases h with h | h
    · simp [validatedMessages, jsGetField, h, jsTruthy]
    · rcases hm : jsLookup fields "messages" with _ | j
      · simp [validatedMessages, jsGetField, hm, jsTruthy]
      · have := h j hm
        cases j <;> simp_all [validatedMessages, jsGetField, jsTruthy, jsIsArray]
  simp [handleCallTool, hv]

/-- Witness for C7: the specification's example arguments `{}` (no `messages`
field) yield `InvalidParams` and no outbound request. -/
theorem invalid_messages_invalid_params_witness :
    (jsLookup [] "messages" = none ∨
      ∀ j, jsLookup ([] : List (String × Json)) "messages" = some j →
        jsIsArray (some j) = false) ∧
    handleCallTool "key" (fun _ => .networkError "unreachable")
        ⟨"perplexity_ask", some (Json.obj [])⟩ =
      ([], .error ⟨.InvalidParams,
        "Invalid arguments for perplexity_ask: \x22messages\x22 must be an array"⟩) :=
  ⟨Or.inl rfl,
   invalid_messages_invalid_params "key" (fun _ => .networkError "unreachable") []
     (Or.inl rfl)⟩

/-- C10: the tool-name check runs before argument validation: a request with a
mismatched tool name fails with `MethodNotFound` even when its arguments are
also malformed, and never yields `InvalidParams`. -/
theorem name_check_precedes_argument_validation (apiKey : String)
    (fetchFn : Request → FetchOutcome) (req : CallToolRequest)
    (hname : req.name ≠ "perplexity_ask")
    (_hargs : validatedMessages req.arguments = none) :
    (handleCallTool apiKey fetchFn req).2 =
      .error ⟨.MethodNotFound, "Unknown tool: " ++ req.name⟩ ∧
    ∀ e : McpError, (handleCallTool apiKey fetchFn req).2 = .error e →
      e.code ≠ .InvalidParams := by
  have hres : (handleCallTool apiKey fetchFn req).2 =
      .error ⟨.MethodNotFound, "Unknown tool: " ++ req.name⟩ := by
    simp [handleCallTool, hname]
  refine ⟨hres, fun e he hcode => ?_⟩
  rw [hres] at he
  cases he
  simp at hcode

/-- Witness for C10: the name `not_perplexity_ask` together with the malformed
arguments `{}` yields `MethodNotFound`, not `InvalidParams`. -/
theorem name_check_precedes_argument_validation_witness :
    ("not_perplexity_ask" : String) ≠ "perplexity_ask" ∧
    validatedMessages (some (Json.obj [])) = none ∧
    (handleCallTool "key" (fun _ => .networkError "unreachable")
        ⟨"not_perplexity_ask", some (Json.obj [])⟩).2 =
      .error ⟨.MethodNotFound, "Unknown tool: not_perplexity_ask"⟩ :=
  ⟨by decide, rfl,
   (name_check_precedes_argument_validation "key" (fun _ => .networkError "unreachable")
     ⟨"not_perplexity_ask", some (Json.obj [])⟩ (by decide) rfl).1⟩

/-- C8: when the upstream HTTP status is outside the 2xx range,
`performChatCompletion` fails with an error whose message carries the numeric
status code, the status text, and the decoded response body — or the fixed
placeholder `Unable to parse error response` when decoding the body itself
fails. -/
theorem non2xx_status_error_message (apiKey : String) (msgs : List Json)
    (fetchFn : Request → FetchOutcome) (r : FetchResponse)
    (hf : fetchFn (mkRequest apiKey msgs) = .response r)
    (hs : r.status < 200 ∨ 299 < r.status) :
    (performChatCompletion apiKey msgs fetchFn).2 =
      .error (.error ("Perplexity API error: " ++ toString r.status ++ " " ++ r.statusText
        ++ "\n" ++ (match r.textBody with
                    | .ok t => t
                    | .error _ => "Unable to parse error response"))) := by
  have hok : r.ok = false := by
    unfold FetchResponse.ok
    rcases hs with h | h <;> simp <;> omega
  unfold performChatCompletion
  simp [hf, hok]

/-- Witness for C8: a 404 response with decodable body `nope` produces the
error message `Perplexity API error: 404 Not Found\nnope`. -/
theorem non2xx_status_error_message_witness :
    ((404 : Nat) < 200 ∨ 299 < 404) ∧
    (performChatCompletion "key" []
        (fun _ => .response ⟨404, "Not Found", .ok "nope", .error "x"⟩)).2 =
      .error (.error "Perplexity API error: 404 Not Found\nnope") :=
  ⟨Or.inr (by decide),
   non2xx_status_error_message "key" []
     (fun _ => .response ⟨404, "Not Found", .ok "nope", .error "x"⟩)
     ⟨404, "Not Found", .ok "nope", .error "x"⟩ rfl (Or.inr (by decide))⟩

/-- C9: for every call-tool request naming `perplexity_ask` whose arguments
validate, if `performChatCompletion` succeeds then the protocol response is a
single text-content item holding the composed result, marked `isError: false`. -/
theorem success_single_text_content (apiKey : String)
    (fetchFn : Request → FetchOutcome) (args : JsValue) (msgs : List Json)
    (result : JsValue)
    (hargs : validatedMessages args = some msgs)
    (hok : (performChatCompletion apiKey msgs fetchFn).2 = .ok result) :
    (handleCallTool apiKey fetchFn ⟨"perplexity_ask", args⟩).2 =
      .ok { content := [{ type := "text", text := result }], isError := false } := by
  rcases hp : performChatCompletion apiKey msgs fetchFn with ⟨reqs, res⟩
  rw [hp] at hok
  simp only at hok
  subst hok
  simp [handleCallTool, hargs, hp]

/-- Witness for C9, at the specification's end-to-end scenario: messages
`[{role:"user",content:"ping"}]` with mocked upstream
`{choices:[{message:{content:"pong"}}], citations:[]}` yield the text-content
`"pong"` with `isError:false`. -/
theorem success_single_text_content_witness :
    validatedMessages (some (Json.obj [("messages",
        Json.arr [Json.obj [("role", Json.str "user"), ("content", Json.str "ping")]])])) =
      some [Json.obj [("role", Json.str "user"), ("content", Json.str "ping")]] ∧
    (performChatCompletion "key"
        [Json.obj [("role", Json.str "user"), ("content", Json.str "ping")]]
        (fun _ => .response ⟨200, "OK", .ok "",
          .ok (Json.obj [("choices", Json.arr [Json.obj [("message",
            Json.obj [("content", Json.str "pong")])]]), ("citations", Json.arr [])])⟩)).2 =
      .ok (some (Json.str "pong")) ∧
    (handleCallTool "key"
        (fun _ => .response ⟨200, "OK", .ok "",
          .ok (Json.obj [("choices", Json.arr [Json.obj [("message",
            Json.obj [("content", Json.str "pong")])]]), ("citations", Json.arr [])])⟩)
        ⟨"perplexity_ask", some (Json.obj [("messages",
          Json.arr [Json.obj [("role", Json.str "user"), ("content", Json.str "ping")]])])⟩).2 =
      .ok { content := [{ type := "text", text := some (Json.str "pong") }],
            isError := false } :=
  ⟨rfl, rfl,
   success_single_text_content "key"
     (fun _ => .response ⟨200, "OK", .ok "",
       .ok (Json.obj [("choices", Json.arr [Json.obj [("message",
         Json.obj [("content", Json.str "pong")])]]), ("citations", Json.arr [])])⟩)
     (some (Json.obj [("messages",
       Json.arr [Json.obj [("role", Json.str "user"), ("content", Json.str "ping")]])]))
     [Json.obj [("role", Json.str "user"), ("content", Json.str "ping")]]
     (some (Json.str "pong")) rfl rfl⟩

/-- Counterexample to C1: at the concrete upstream response body `{}` (which
lacks `choices[0].message.content`), the tool call does NOT surface an
uncaught runtime fault — the handler's `catch` converts the `TypeError` into
a structured `InternalError` protocol error. -/
theorem missing_choices_yields_internal_error :
    (handleCallTool "key" (fun _ => .response ⟨200, "OK", .ok "", .ok (Json.obj [])⟩)
        ⟨"perplexity_ask", some (Json.obj [("messages", Json.arr [])])⟩).2 =
      .error ⟨.InternalError,
        "Error processing request: Cannot read properties of undefined (reading '0')"⟩ := rfl

/-- C1 (amended): for every upstream success response whose JSON body makes
the `choices[0].message.content` retrieval fault (a runtime `TypeError`), the
call-tool boundary catches the fault and converts it into an `InternalError`
protocol error whose message embeds the fault's message. -/
theorem extraction_fault_caught_as_internal_error (apiKey : String)
    (fetchFn : Request → FetchOutcome) (args : JsValue) (msgs : List Json)
    (r : FetchResponse) (data : Json) (m : String)
    (hargs : validatedMessages args = some msgs)
    (hf : fetchFn (mkRequest apiKey msgs) = .response r)
    (hok : r.ok = true)
    (hjson : r.jsonBody = .ok data)
    (hfault : formatResult data = .error (.typeError m)) :
    (handleCallTool apiKey fetchFn ⟨"perplexity_ask", args⟩).2 =
      .error ⟨.InternalError, "Error processing request: " ++ m⟩ := by
  have hperf : (performChatCompletion apiKey msgs fetchFn).2 = .error (.typeError m) := by
    unfold performChatCompletion
    simp [hf, hok, hjson, hfault]
  rcases hp : performChatCompletion apiKey msgs fetchFn with ⟨reqs, res⟩
  rw [hp] at hperf
  simp only at hperf
  subst hperf
  simp [handleCallTool, hargs, hp, JsError.message]

/-- Witness for the amended C1: the upstream body `{}` makes the extraction
fault with `TypeError` message `Cannot read properties of undefined (reading
'0')`, and the tool call returns the corresponding `InternalError`. -/
theorem extraction_fault_caught_as_internal_error_witness :
    validatedMessages (some (Json.obj [("messages", Json.arr [])])) = some [] ∧
    formatResult (Json.obj []) =
      .error (.typeError "Cannot read properties of undefined (reading '0')") ∧
    (handleCallTool "key"
        (fun _ => .response ⟨200, "OK", .ok "", .ok (Json.obj [])⟩)
        ⟨"perplexity_ask", some (Json.obj [("messages", Json.arr [])])⟩).2 =
      .error ⟨.InternalError,
        "Error processing request: Cannot read properties of undefined (reading '0')"⟩ :=
  ⟨rfl, rfl,
   extraction_fault_caught_as_internal_error "key"
     (fun _ => .response ⟨200, "OK", .ok "", .ok (Json.obj [])⟩)
     (some (Json.obj [("messages", Json.arr [])])) []
     ⟨200, "OK", .ok "", .ok (Json.obj [])⟩ (Json.obj [])
     "Cannot read properties of undefined (reading '0')" rfl rfl rfl rfl rfl⟩

/-- Counterexample to C2: when the top-level run promise rejects (here with
`"boom"`), the process does not terminate abnormally — the rejection is
consumed by `.catch(console.error)` and merely logged. -/
theorem run_rejection_is_logged_not_fatal :
    topLevel (some "key") (.error "boom") = .runRejectionLogged "boom" := rfl

/-- C2 (amended): the process terminates abnormally at startup when the
credential environment variable is absent; a rejection of the top-level run
promise, by contrast, is caught by `.catch(console.error)` and logged, and
does not by itself terminate the process. The second conjunct additionally
records that `!PERPLEXITY_API_KEY` treats an empty credential string as
falsy, so startup is fatal then as well — which is why the run-rejection
conjunct may assume a non-empty key: with an absent or empty credential the
run call is never reached. -/
theorem startup_and_run_rejection_behavior (runOutcome : Except String Unit)
    (key e : String) (hkey : key ≠ "") :
    topLevel none runOutcome =
      .exitFailure "PERPLEXITY_API_KEY environment variable is required" ∧
    topLevel (some "") runOutcome =
      .exitFailure "PERPLEXITY_API_KEY environment variable is required" ∧
    topLevel (some key) (.error e) = .runRejectionLogged e := by
  refine ⟨rfl, rfl, ?_⟩
  simp [topLevel, hkey]

/-- Witness for the amended C2 at a concrete credential and rejection:
absent and empty credentials are fatal at startup, while a rejection of the
run promise under the credential `"key"` is merely logged. -/
theorem startup_and_run_rejection_behavior_witness :
    ("key" : String) ≠ "" ∧
    topLevel none (.ok ()) =
      .exitFailure "PERPLEXITY_API_KEY environment variable is required" ∧
    topLevel (some "") (.ok ()) =
      .exitFailure "PERPLEXITY_API_KEY environment variable is required" ∧
    topLevel (some "key") (.error "boom") = .runRejectionLogged "boom" :=
  ⟨by decide, startup_and_run_rejection_behavior (.ok ()) "key" "boom" (by decide)⟩
